import Mathlib

/-!
Shallow embedding of the remote job execution core of the aws_iot_integration
repository: command execution and result classification
(src/remote_control/command.py, src/clients/remote.py), paginated job listing
and reconciliation of unfinished jobs
(src/lambda_func/remote_control_api/lambda_function.py,
src/lambda_function/lambda_handler.py), response polling, and the HTTP handler
envelopes.  Stateful calls to the AWS backend are modelled by explicit state
passing (a job store as a list of jobs) or by outcome parameters
(`Except String _` for calls that may raise), and Python generators / while
loops by fuel-indexed recursion.
-/

/-- AWS IoT job (execution) statuses as used across the repository. -/
inductive JobStatus where
  | QUEUED
  | IN_PROGRESS
  | SUCCEEDED
  | FAILED
  | TIMED_OUT
  | REJECTED
  | REMOVED
  | CANCELED
deriving DecidableEq, Repr

/-- Terminal job statuses: every status except QUEUED and IN_PROGRESS
(spec glossary: "a job status from which no further transition occurs"). -/
def JobStatus.terminal (s : JobStatus) : Prop :=
  s ≠ JobStatus.QUEUED ∧ s ≠ JobStatus.IN_PROGRESS

instance (s : JobStatus) : Decidable s.terminal := by
  unfold JobStatus.terminal
  infer_instance

/-- Python `str.lower` on a single code point, restricted to ASCII: the
uppercase letters A-Z (65-90) map to a-z (97-122), everything else is kept.
Python also lowercases non-ASCII letters, but no non-ASCII code point
lowercases into the ASCII range, so this restriction is faithful for
searching for the ASCII substring "error". -/
def pyLowerCp (n : Nat) : Nat := if 65 ≤ n ∧ n ≤ 90 then n + 32 else n

/-- A Python string, as its list of code points. -/
def pyStr (s : String) : List Nat := s.data.map Char.toNat

/-- Python `s.lower()` over code points. -/
def pyLower (s : List Nat) : List Nat := s.map pyLowerCp

/-- The code points of the literal `'error'`. -/
def errorCps : List Nat := pyStr "error"

/-- The classification applied to a command output in
src/remote_control/command.py lines 39-42 and src/clients/remote.py lines
170-173: `if 'error' in output.lower():` the job execution status is FAILED,
otherwise SUCCEEDED.  Python's substring test `in` is contiguous-sublist
containment on the code points of `output.lower()`. -/
def classifyOutput (output : String) : JobStatus :=
  if errorCps <:+: pyLower (pyStr output) then JobStatus.FAILED
  else JobStatus.SUCCEEDED

/-- Equality of two code points up to ASCII case: they are equal, or one is
the uppercase letter whose lowercase form is the other. -/
def ciEqCp (a b : Nat) : Prop :=
  a = b ∨ (65 ≤ a ∧ a ≤ 90 ∧ b = a + 32) ∨ (65 ≤ b ∧ b ≤ 90 ∧ a = b + 32)

/-- `pat` occurs in `s` as a contiguous run that equals `pat` up to ASCII
case: the spec-side reading of "contains the case-insensitive substring". -/
def containsCI (pat s : List Nat) : Prop :=
  ∃ mid, mid <:+: s ∧ List.Forall₂ ciEqCp pat mid

theorem errorCps_eq : errorCps = [101, 114, 114, 111, 114] := rfl

theorem ciEqCp_lowered (c : Nat) : ciEqCp (pyLowerCp c) c := by
  unfold ciEqCp pyLowerCp
  split <;> omega

theorem ciEqCp_to_lower {a c : Nat} (h : ciEqCp a c) (ha1 : 97 ≤ a)
    (ha2 : a ≤ 122) : pyLowerCp c = a := by
  unfold ciEqCp at h
  unfold pyLowerCp
  split <;> omega

/-- If a pattern is an infix of a mapped list, it is the image of an infix. -/
theorem contig_in_map_decomp {f : Nat → Nat} {pat s : List Nat}
    (h : pat <:+: s.map f) : ∃ mid, mid <:+: s ∧ mid.map f = pat := by
  obtain ⟨pre, post, hps⟩ := h
  refine ⟨(s.drop pre.length).take pat.length, ⟨s.take pre.length,
    s.drop (pre.length + pat.length), ?_⟩, ?_⟩
  · rw [← List.drop_drop, List.append_assoc, List.take_append_drop,
      List.take_append_drop]
  · rw [List.map_take, List.map_drop, ← hps]
    rw [show pre ++ pat ++ post = pre ++ (pat ++ post) by simp, List.drop_left,
      List.take_left]

theorem classify_failed_iff (output : String) :
    classifyOutput output = JobStatus.FAILED ↔
      containsCI errorCps (pyStr output) := by
  unfold classifyOutput
  constructor
  · intro h
    by_cases hin : errorCps <:+: pyLower (pyStr output)
    · obtain ⟨mid, hmid, hmap⟩ := contig_in_map_decomp hin
      refine ⟨mid, hmid, ?_⟩
      rw [← hmap, List.forall₂_map_left_iff, List.forall₂_same]
      intro c _
      exact ciEqCp_lowered c
    · rw [if_neg hin] at h
      exact absurd h (by simp)
  · rintro ⟨mid, hmid, hF⟩
    have hmap : mid.map pyLowerCp = errorCps := by
      rw [errorCps_eq] at hF
      cases hF with
      | cons h1 hF => cases hF with
        | cons h2 hF => cases hF with
          | cons h3 hF => cases hF with
            | cons h4 hF => cases hF with
              | cons h5 hF =>
                cases hF
                rw [errorCps_eq]
                simp only [List.map]
                rw [ciEqCp_to_lower h1 (by omega) (by omega),
                  ciEqCp_to_lower h2 (by omega) (by omega),
                  ciEqCp_to_lower h3 (by omega) (by omega),
                  ciEqCp_to_lower h4 (by omega) (by omega),
                  ciEqCp_to_lower h5 (by omega) (by omega)]
    have hin : errorCps <:+: pyLower (pyStr output) := by
      rw [← hmap]
      exact hmid.map pyLowerCp
    rw [if_pos hin]

/-- C4: for every command output string, the execution result is classified
FAILED if and only if the output contains the case-insensitive substring
"error", and SUCCEEDED otherwise — including the edge case that a success
message containing the word "error" is classified FAILED. -/
theorem c4_error_substring_classification (output : String) :
    (classifyOutput output = JobStatus.FAILED ↔
      containsCI errorCps (pyStr output)) ∧
    (classifyOutput output = JobStatus.SUCCEEDED ↔
      ¬ containsCI errorCps (pyStr output)) ∧
    classifyOutput "Success, no Error" = JobStatus.FAILED := by
  refine ⟨classify_failed_iff output, ?_, by decide⟩
  rw [← classify_failed_iff output]
  unfold classifyOutput
  split <;> simp

/-- A command registry as looked up by `dict.get` in
src/remote_control/command.py (COMMAND_DICTS) and by `self.commands.get` in
src/clients/remote.py (register_command): a name resolves to a handler, and
calling a handler either returns a string or raises (`Except.error`). -/
def Registry : Type := String → Option (Except String String)

/-- The registry shipped in both files: only the command 'version', whose
handler returns `settings.version` ('0.0.1' in config.py) and cannot raise. -/
def registerCommand : Registry :=
  fun c => if c = "version" then some (Except.ok "0.0.1") else none

/-- The output computed by execute_command in src/remote_control/command.py
lines 31-38: the handler resolved by `dict(COMMAND_DICTS).get(cmd, default)`
is called inside `try`; a raising handler is converted to `'Error! {err}'`;
the default handler for an unknown command returns
`'Error! Command "{cmd}"" not recognized.'` (note the doubled closing quote,
exactly as in the source f-string `f'Error! Command "{cmd}"" not
recognized.'`). -/
def executeCommandOutput (commands : Registry) (cmd : String) : String :=
  match commands cmd with
  | none => "Error! Command \"" ++ cmd ++ "\"\" not recognized."
  | some (Except.ok s) => s
  | some (Except.error err) => "Error! " ++ err

/-- The `statusDetails` dictionary built by execute_command and by
_start_next_in_progress: handledBy, handledTime, output. -/
structure StatusDetails where
  handledBy : String
  handledTime : Nat
  output : String
deriving DecidableEq, Repr

/-- execute_command in src/remote_control/command.py: returns the pair of the
classified job status and the status details. `now` is `int(time() * 1000)`. -/
def executeCommand (commands : Registry) (cmd thingName : String) (now : Nat) :
    JobStatus × StatusDetails :=
  (classifyOutput (executeCommandOutput commands cmd),
    { handledBy := thingName, handledTime := now,
      output := executeCommandOutput commands cmd })

/-- The `execution` object of a job message, with the fields
_start_next_in_progress reads (spec section 6: required fields on a claimed
job are jobId, jobDocument.cmd, versionNumber, executionNumber). -/
structure ExecutionMsg where
  jobId : String
  jobDocumentCmd : String
  versionNumber : Nat
  executionNumber : Nat
deriving DecidableEq, Repr

/-- A payload received on the start-next accepted topic.  `execution = none`
models both a payload without an 'execution' key and one whose 'execution'
is empty, since `execution = payload.get('execution', None)` followed by
`if execution:` treats both as falsy. -/
structure NotifyPayload where
  execution : Option ExecutionMsg
deriving DecidableEq, Repr

/-- The arguments of the `sendJobsUpdate` call issued (on a worker thread) by
_start_next_in_progress in src/clients/remote.py lines 157-185. -/
structure JobsUpdate where
  jobId : String
  status : JobStatus
  statusDetails : StatusDetails
  expectedVersion : Nat
  executionNumber : Nat
deriving DecidableEq, Repr

/-- _start_next_in_progress in src/clients/remote.py lines 131-185, as the
list of status updates it publishes.  The command is resolved via
`self.commands.get(self.cmd, lambda: f'Error! {self.cmd} not recognized.')`
and called with no try/except around it, so a raising handler propagates
(`Except.error`) and nothing is published; otherwise exactly one update is
published, carrying the execution's jobId, the classified status, the status
details with the output, `expectedVersion = versionNumber` and
`executionNumber`. -/
def startNextInProgress (commands : Registry) (thingName : String) (now : Nat)
    (payload : NotifyPayload) : Except String (List JobsUpdate) :=
  match payload.execution with
  | none => Except.ok []
  | some e =>
    match (commands e.jobDocumentCmd).getD
        (Except.ok ("Error! " ++ e.jobDocumentCmd ++ " not recognized.")) with
    | Except.error err => Except.error err
    | Except.ok output =>
      Except.ok [{ jobId := e.jobId,
                   status := classifyOutput output,
                   statusDetails := { handledBy := thingName,
                                      handledTime := now, output := output },
                   expectedVersion := e.versionNumber,
                   executionNumber := e.executionNumber }]

/-- C8 counterexample: for a command name absent from the registry,
execute_command's result string is `Error! Command "foo"" not recognized.`
— with a doubled closing quote — and not the string
`Error! Command "foo" not recognized.` claimed (one pair of quotes). -/
theorem c8_unknown_command_text_cex :
    executeCommandOutput registerCommand "foo" =
      "Error! Command \"foo\"\" not recognized." ∧
    executeCommandOutput registerCommand "foo" ≠
      "Error! Command \"foo\" not recognized." := by
  constructor
  · rfl
  · decide

/-- C8 (amended): for a name absent from the registry, execute_command in
src/remote_control/command.py yields `Error! Command "{name}"" not
recognized.` (doubled closing quote), and an exception raised by a registered
handler is converted there to `'Error! ' ++ err`; in src/clients/remote.py
the unknown-command result is `Error! {name} not recognized.` (no quotes, no
'Command'), and a raising registered handler is NOT converted but propagates
out of _start_next_in_progress. -/
theorem c8_unknown_command_text_amended (commands : Registry)
    (cmd thingName err : String) (now : Nat) (e : ExecutionMsg) :
    (commands cmd = none → executeCommandOutput commands cmd =
      "Error! Command \"" ++ cmd ++ "\"\" not recognized.") ∧
    (commands cmd = some (Except.error err) →
      executeCommandOutput commands cmd = "Error! " ++ err) ∧
    (commands e.jobDocumentCmd = none →
      startNextInProgress commands thingName now { execution := some e } =
        Except.ok [{
          jobId := e.jobId,
          status := classifyOutput
            ("Error! " ++ e.jobDocumentCmd ++ " not recognized."),
          statusDetails := {
            handledBy := thingName,
            handledTime := now,
            output := "Error! " ++ e.jobDocumentCmd ++ " not recognized." },
          expectedVersion := e.versionNumber,
          executionNumber := e.executionNumber }]) ∧
    (commands e.jobDocumentCmd = some (Except.error err) →
      startNextInProgress commands thingName now { execution := some e } =
        Except.error err) := by
  refine ⟨?_, ?_, ?_, ?_⟩ <;> intro h <;>
    simp [executeCommandOutput, startNextInProgress, h]

/-- C8 witness: the amended theorem applied to the shipped registry and the
unregistered command name 'foo'. -/
theorem c8_unknown_command_text_witness :
    executeCommandOutput registerCommand "foo" =
      "Error! Command \"foo\"\" not recognized." ∧
    startNextInProgress registerCommand "thing-1" 17
        { execution := some {
            jobId := "job-1",
            jobDocumentCmd := "foo",
            versionNumber := 1,
            executionNumber := 1 } } =
      Except.ok [{
        jobId := "job-1",
        status := classifyOutput "Error! foo not recognized.",
        statusDetails := {
          handledBy := "thing-1",
          handledTime := 17,
          output := "Error! foo not recognized." },
        expectedVersion := 1,
        executionNumber := 1 }] := by
  have h := c8_unknown_command_text_amended registerCommand "foo" "thing-1"
    "unused" 17
    { jobId := "job-1",
      jobDocumentCmd := "foo",
      versionNumber := 1,
      executionNumber := 1 }
  exact ⟨h.1 rfl, h.2.2.1 rfl⟩

/-- C9: for every start-accepted message whose payload contains a non-empty
execution, the agent publishes exactly one status update for that job,
carrying the jobId, the status given by the classification rule,
statusDetails containing the command output, expectedVersion equal to the
message's versionNumber and executionNumber equal to its executionNumber;
if the payload has no execution, no update is published.  (Stated for a
resolved handler that returns normally; the only shipped handler,
'version', cannot raise.) -/
theorem c9_version_carrying_update (commands : Registry)
    (thingName out : String) (now : Nat) (e : ExecutionMsg) :
    (commands e.jobDocumentCmd = some (Except.ok out) →
      startNextInProgress commands thingName now { execution := some e } =
        Except.ok [{
          jobId := e.jobId,
          status := classifyOutput out,
          statusDetails := {
            handledBy := thingName,
            handledTime := now,
            output := out },
          expectedVersion := e.versionNumber,
          executionNumber := e.executionNumber }]) ∧
    (commands e.jobDocumentCmd = none →
      startNextInProgress commands thingName now { execution := some e } =
        Except.ok [{
          jobId := e.jobId,
          status := classifyOutput
            ("Error! " ++ e.jobDocumentCmd ++ " not recognized."),
          statusDetails := {
            handledBy := thingName,
            handledTime := now,
            output := "Error! " ++ e.jobDocumentCmd ++ " not recognized." },
          expectedVersion := e.versionNumber,
          executionNumber := e.executionNumber }]) ∧
    startNextInProgress commands thingName now { execution := none } =
      Except.ok [] := by
  refine ⟨?_, ?_, rfl⟩ <;> intro h <;> simp [startNextInProgress, h]

/-- C9 witness: the shipped registry executing 'version' on a concrete
claimed job publishes exactly the one expected update. -/
theorem c9_version_carrying_update_witness :
    startNextInProgress registerCommand "sensor-1" 1000
        { execution := some {
            jobId := "job-9",
            jobDocumentCmd := "version",
            versionNumber := 3,
            executionNumber := 2 } } =
      Except.ok [{
        jobId := "job-9",
        status := classifyOutput "0.0.1",
        statusDetails := {
          handledBy := "sensor-1",
          handledTime := 1000,
          output := "0.0.1" },
        expectedVersion := 3,
        executionNumber := 2 }] :=
  (c9_version_carrying_update registerCommand "sensor-1" "0.0.1" 1000
    { jobId := "job-9",
      jobDocumentCmd := "version",
      versionNumber := 3,
      executionNumber := 2 }).1 rfl

/-- One response of `list_job_executions_for_thing`: a page of job ids (the
`executionSummaries`, projected to their jobId) and the optional `nextToken`
key, which is absent on the last page of a listing. -/
structure PageResp where
  executionSummaries : List String
  nextTokenField : Option String
deriving DecidableEq, Repr

/-- A paginated listing backend for a fixed thing and status: the response to
the initial request carrying no `nextToken`, and the response to a request
carrying a given `nextToken`. -/
structure ListBackend where
  firstPage : PageResp
  nextPage : String → PageResp

/-- get_job_id in src/lambda_func/remote_control_api/lambda_function.py lines
32-57, with the generator's yields collected into a list: `next_t` starts as
'dummy'; while `next_t` is nonempty, the request is issued without a token
when `next_t == 'dummy'` and with `nextToken=next_t` otherwise, the page's
job ids are yielded, and `next_t := resp.get('nextToken', '')`.  Fuel bounds
the number of loop iterations; `none` means the loop was still running when
the fuel ran out. -/
def getJobIdApi (b : ListBackend) : String → List String → Nat →
    Option (List String)
  | t, acc, 0 => if t = "" then some acc else none
  | t, acc, fuel + 1 =>
    if t = "" then some acc
    else
      let resp := if t = "dummy" then b.firstPage else b.nextPage t
      getJobIdApi b (resp.nextTokenField.getD "")
        (acc ++ resp.executionSummaries) fuel

/-- Full run of the remote_control_api get_job_id generator. -/
def getJobIdApiRun (b : ListBackend) (fuel : Nat) : Option (List String) :=
  getJobIdApi b "dummy" [] fuel

/-- get_job_id in src/lambda_function/lambda_handler.py lines 51-70: `next_t`
starts as 'dummy' and every request — including the first — carries
`nextToken=next_t`; after yielding a page the code reads `resp['nextToken']`
unconditionally, which raises KeyError when the response has no such key.
`some (Except.error _)` is the generator raising; `none` is fuel running
out. -/
def getJobIdHandler (b : ListBackend) : String → List String → Nat →
    Option (Except String (List String))
  | t, acc, 0 => if t = "" then some (Except.ok acc) else none
  | t, acc, fuel + 1 =>
    if t = "" then some (Except.ok acc)
    else
      let resp := b.nextPage t
      match resp.nextTokenField with
      | some t2 => getJobIdHandler b t2 (acc ++ resp.executionSummaries) fuel
      | none => some (Except.error "KeyError: nextToken")

/-- Full run of the lambda_handler get_job_id generator. -/
def getJobIdHandlerRun (b : ListBackend) (fuel : Nat) :
    Option (Except String (List String)) :=
  getJobIdHandler b "dummy" [] fuel

/-- The continuation token naming page `i` (tokens are opaque strings chosen
by the backend; this backend uses `i` repetitions of 'x'). -/
def pageToken (i : Nat) : String := String.mk (List.replicate i 'x')

/-- A well-behaved AWS-style backend serving a fixed list of pages: the
initial request returns page 0 together with a token for page 1 when one
exists; a request carrying the token for page `i` returns page `i` together
with a token for page `i + 1` when one exists; the final page's response has
no `nextToken` key. -/
def pagesBackend (pages : List (List String)) : ListBackend where
  firstPage :=
    { executionSummaries := pages.getD 0 [],
      nextTokenField :=
        if 1 < pages.length then some (pageToken 1) else none }
  nextPage := fun t =>
    { executionSummaries := pages.getD t.length [],
      nextTokenField :=
        if t.length + 1 < pages.length then some (pageToken (t.length + 1))
        else none }

/-- A backend holding a single page of results: every response returns the
page and omits `nextToken`, as the AWS API does on the last page of a
listing.  (It also tolerates the literal token 'dummy' that the
lambda_handler version sends on its first request; the real service would
reject that request outright.) -/
def singlePageBackend (jobs : List String) : ListBackend where
  firstPage := { executionSummaries := jobs, nextTokenField := none }
  nextPage := fun _ => { executionSummaries := jobs, nextTokenField := none }

theorem pageToken_length (i : Nat) : (pageToken i).length = i := by
  simp [pageToken, String.length]

theorem pageToken_ne_empty {i : Nat} (hi : 1 ≤ i) : pageToken i ≠ "" := by
  intro h
  have h2 := congrArg String.length h
  rw [pageToken_length] at h2
  have h3 : ("" : String).length = 0 := rfl
  omega

theorem pageToken_ne_dummy (i : Nat) : pageToken i ≠ "dummy" := by
  intro h
  have h2 := congrArg String.length h
  rw [pageToken_length] at h2
  have h3 : ("dummy" : String).length = 5 := rfl
  have h4 : i = 5 := by omega
  subst h4
  exact absurd h (by decide)

theorem getJobIdApi_emptyTok (b : ListBackend) (acc : List String)
    (fuel : Nat) : getJobIdApi b "" acc fuel = some acc := by
  cases fuel <;> simp [getJobIdApi]

theorem pagesBackend_next_summaries (pages : List (List String))
    (t : String) : ((pagesBackend pages).nextPage t).executionSummaries =
      pages.getD t.length [] := rfl

theorem pagesBackend_next_token (pages : List (List String)) (t : String) :
    ((pagesBackend pages).nextPage t).nextTokenField =
      (if t.length + 1 < pages.length then some (pageToken (t.length + 1))
       else none) := rfl

theorem pagesBackend_first_summaries (pages : List (List String)) :
    (pagesBackend pages).firstPage.executionSummaries = pages.getD 0 [] := rfl

theorem pagesBackend_first_token (pages : List (List String)) :
    (pagesBackend pages).firstPage.nextTokenField =
      (if 1 < pages.length then some (pageToken 1) else none) := rfl

theorem getJobIdApi_fromTok (pages : List (List String)) :
    ∀ fuel i acc, 1 ≤ i → i < pages.length → pages.length - i ≤ fuel →
      getJobIdApi (pagesBackend pages) (pageToken i) acc fuel =
        some (acc ++ (pages.drop i).flatten) := by
  intro fuel
  induction fuel with
  | zero => intro i acc h1 h2 h3; omega
  | succ fuel ih =>
    intro i acc h1 h2 h3
    rw [getJobIdApi, if_neg (pageToken_ne_empty h1),
      if_neg (pageToken_ne_dummy i)]
    simp only [pagesBackend_next_summaries, pagesBackend_next_token,
      pageToken_length]
    by_cases hlt : i + 1 < pages.length
    · rw [if_pos hlt]
      simp only [Option.getD_some]
      rw [ih (i + 1) (acc ++ pages.getD i []) (by omega) hlt (by omega)]
      rw [List.drop_eq_getElem_cons h2, List.flatten_cons,
        List.getD_eq_getElem pages [] h2, List.append_assoc]
    · rw [if_neg hlt]
      simp only [Option.getD_none]
      rw [getJobIdApi_emptyTok]
      rw [List.drop_eq_getElem_cons h2, List.flatten_cons,
        List.getD_eq_getElem pages [] h2,
        List.drop_eq_nil_of_le (by omega), List.flatten_nil,
        List.append_nil]

theorem getJobIdApiRun_pages (pages : List (List String)) :
    getJobIdApiRun (pagesBackend pages) (pages.length + 1) =
      some pages.flatten := by
  rw [getJobIdApiRun, getJobIdApi]
  rw [if_neg (by decide : ¬ ("dummy" : String) = ""),
    if_pos (rfl : ("dummy" : String) = "dummy")]
  simp only [pagesBackend_first_summaries, pagesBackend_first_token]
  by_cases hlt : 1 < pages.length
  · rw [if_pos hlt]
    simp only [Option.getD_some, List.nil_append]
    rw [getJobIdApi_fromTok pages (pages.length) 1 (pages.getD 0 [])
      (by omega) (by omega) (by omega)]
    cases pages with
    | nil => simp at hlt
    | cons p rest => simp
  · rw [if_neg hlt]
    simp only [Option.getD_none, List.nil_append]
    rw [getJobIdApi_emptyTok]
    cases pages with
    | nil => simp
    | cons p rest =>
      cases rest with
      | nil => simp
      | cons q rest2 => simp at hlt

/-- C2 (evaluation): the remote_control_api get_job_id yields exactly the
concatenation of all pages — each listed job id exactly as often as the
backend lists it, with no omission and no duplication — terminating as soon
as a response carries no continuation token; the lambda_handler get_job_id,
on the very same kind of backend (a single page whose response has no
`nextToken` key, the shape AWS produces for the last page of every listing),
raises KeyError instead of completing, so it never yields the union of the
pages. -/
theorem c2_pagination_completeness (pages : List (List String)) :
    getJobIdApiRun (pagesBackend pages) (pages.length + 1) =
      some pages.flatten ∧
    getJobIdHandlerRun (singlePageBackend ["j1"]) 5 =
      some (Except.error "KeyError: nextToken") :=
  ⟨getJobIdApiRun_pages pages, rfl⟩

/-- A job execution row in the job store: the job's id, the thing (target)
it runs on, and its current execution status. -/
structure Job where
  jobId : String
  target : String
  status : JobStatus
deriving DecidableEq, Repr

/-- The job store held by the AWS backend: one row per job execution. -/
abbrev JobStore := List Job

/-- The job ids listed by `get_job_id(thing_name, status)` against the
current store: the ids of the executions on `thing` currently holding
`status` (by getJobIdApiRun_pages the generator yields exactly the backend's
listing; here the listing is taken in one page). -/
def jobIdsFor (store : JobStore) (thing : String) (st : JobStatus) :
    List String :=
  (store.filter (fun j => decide (j.target = thing ∧ j.status = st))).map
    Job.jobId

/-- The effect of a successful `cancel_job(jobId, force=True)` on the store:
every execution of the job becomes CANCELED. -/
def cancelJob (store : JobStore) (jobId : String) : JobStore :=
  store.map (fun j =>
    if j.jobId = jobId then { j with status := JobStatus.CANCELED } else j)

/-- What cancel returns: the store after the call and the message dict's
'message' value. -/
structure CancelResult where
  store : JobStore
  message : String
deriving DecidableEq, Repr

/-- cancel in src/lambda_func/remote_control_api/lambda_function.py lines
158-193.  `raises jobId = some err` models the single cancel_job API call
raising `err`: the source catches any exception from its one cancel_job call
and returns the FAILED message immediately — the call is not retried and the
store is left unchanged.  On success the source then waits until
describe_job reports CANCELED (the retry loop modelled by cancelWaitLoop),
so the resulting store has every execution of the job CANCELED. -/
def cancel (raises : String → Option String) (store : JobStore)
    (jobId : String) : CancelResult :=
  match raises jobId with
  | some err =>
    { store := store,
      message := "Cancel job " ++ jobId ++ " FAILED! Error details: " ++ err }
  | none =>
    { store := cancelJob store jobId,
      message := "Cancel job " ++ jobId ++ " SUCCEEDED!" }

/-- Outcome of one describe_job call inside cancel's wait loop. -/
inductive DescribeResult where
  | err (e : String)
  | ok (status : String)
deriving DecidableEq, Repr

/-- The wait-until-canceled loop at the end of cancel: `status = 'dummy'`,
then `while status != 'CANCELED'`, each iteration calling describe_job
inside `try` — a describe failure is logged as a warning and retried after a
1 second sleep, never raised.  `describe n` is the outcome of the n-th
describe_job call; fuel bounds the modelled iterations (`none` = still
waiting when the fuel ran out). -/
def cancelWaitLoop (describe : Nat → DescribeResult) : Nat → Nat →
    Option Unit
  | _, 0 => none
  | n, fuel + 1 =>
    match describe n with
    | DescribeResult.err _ => cancelWaitLoop describe (n + 1) fuel
    | DescribeResult.ok st =>
      if st = "CANCELED" then some ()
      else cancelWaitLoop describe (n + 1) fuel

/-- fail_in_progress_and_queued_jobs in
src/lambda_func/remote_control_api/lambda_function.py lines 60-74: cancel
every job listed IN_PROGRESS for the thing, then every job listed QUEUED. -/
def failInProgressAndQueuedJobs (raises : String → Option String)
    (store : JobStore) (thing : String) : JobStore :=
  let s1 := (jobIdsFor store thing JobStatus.IN_PROGRESS).foldl
    (fun s id => (cancel raises s id).store) store
  (jobIdsFor s1 thing JobStatus.QUEUED).foldl
    (fun s id => (cancel raises s id).store) s1

/-- The effect of `delete_job(jobId, force=True)`: every execution of the
job is removed from the store. -/
def deleteJob (store : JobStore) (jobId : String) : JobStore :=
  store.filter (fun j => decide (¬ j.jobId = jobId))

/-- delete_unfinished_jobs in src/lambda_function/lambda_handler.py lines
73-89: delete every job listed IN_PROGRESS for the thing, then every job
listed QUEUED.  The delete_job calls are not wrapped in try/except: a
failure (`raises jobId = some err`) propagates out of the function at
once. -/
def deleteUnfinishedJobs (raises : String → Option String)
    (store : JobStore) (thing : String) : Except String JobStore := do
  let s1 ← (jobIdsFor store thing JobStatus.IN_PROGRESS).foldlM
    (fun s id =>
      match raises id with
      | some err => Except.error err
      | none => Except.ok (deleteJob s id)) store
  (jobIdsFor s1 thing JobStatus.QUEUED).foldlM
    (fun s id =>
      match raises id with
      | some err => Except.error err
      | none => Except.ok (deleteJob s id)) s1

/-- The combined effect on one row of canceling every id in `ids` in turn
(all the cancel_job calls succeeding). -/
def cancelAll (ids : List String) (j : Job) : Job :=
  if j.jobId ∈ ids then { j with status := JobStatus.CANCELED } else j

theorem cancelAll_jobId (ids : List String) (j : Job) :
    (cancelAll ids j).jobId = j.jobId := by
  unfold cancelAll
  split <;> rfl

theorem cancelAll_target (ids : List String) (j : Job) :
    (cancelAll ids j).target = j.target := by
  unfold cancelAll
  split <;> rfl

theorem foldl_cancel_eq_map (raises : String → Option String)
    (hr : ∀ id, raises id = none) :
    ∀ (ids : List String) (store : JobStore),
      ids.foldl (fun s id => (cancel raises s id).store) store =
        store.map (cancelAll ids) := by
  intro ids
  induction ids with
  | nil =>
    intro store
    have h : cancelAll [] = id := funext fun j => by simp [cancelAll]
    rw [List.foldl_nil, h, List.map_id]
  | cons id ids ih =>
    intro store
    rw [List.foldl_cons]
    have hc : (cancel raises store id).store = cancelJob store id := by
      simp [cancel, hr id]
    rw [hc, ih, cancelJob, List.map_map]
    congr 1
    funext j
    simp only [Function.comp]
    by_cases h1 : j.jobId = id <;> by_cases h2 : j.jobId ∈ ids <;>
      simp [cancelAll, h1, h2]

theorem mem_jobIdsFor {store : JobStore} {thing : String} {st : JobStatus}
    {j : Job} (hj : j ∈ store) (ht : j.target = thing)
    (hs : j.status = st) : j.jobId ∈ jobIdsFor store thing st := by
  unfold jobIdsFor
  exact List.mem_map_of_mem Job.jobId
    (List.mem_filter.mpr ⟨hj, by simp [ht, hs]⟩)

theorem failIPQ_eq (raises : String → Option String)
    (hr : ∀ id, raises id = none) (store : JobStore) (thing : String) :
    failInProgressAndQueuedJobs raises store thing =
      (store.map
        (cancelAll (jobIdsFor store thing JobStatus.IN_PROGRESS))).map
        (cancelAll (jobIdsFor
          (store.map (cancelAll (jobIdsFor store thing
            JobStatus.IN_PROGRESS))) thing JobStatus.QUEUED)) := by
  unfold failInProgressAndQueuedJobs
  simp only [foldl_cancel_eq_map raises hr]

theorem cancelAll_of_mem (ids : List String) (j : Job)
    (h : j.jobId ∈ ids) :
    cancelAll ids j = { j with status := JobStatus.CANCELED } := by
  unfold cancelAll
  rw [if_pos h]

theorem cancelAll_of_not_mem (ids : List String) (j : Job)
    (h : ¬ j.jobId ∈ ids) : cancelAll ids j = j := by
  unfold cancelAll
  rw [if_neg h]

theorem no_nonterminal_after_failIPQ (raises : String → Option String)
    (hr : ∀ id, raises id = none) (store : JobStore) (thing : String) :
    ∀ j ∈ failInProgressAndQueuedJobs raises store thing,
      j.target = thing → j.status.terminal := by
  intro j hj ht
  rw [failIPQ_eq raises hr store thing] at hj
  obtain ⟨j1, hj1, rfl⟩ := List.mem_map.mp hj
  obtain ⟨j0, hj0, rfl⟩ := List.mem_map.mp hj1
  have ht0 : j0.target = thing := by
    rw [cancelAll_target, cancelAll_target] at ht
    exact ht
  by_cases hm2 : (cancelAll (jobIdsFor store thing JobStatus.IN_PROGRESS)
      j0).jobId ∈ jobIdsFor (store.map (cancelAll (jobIdsFor store thing
        JobStatus.IN_PROGRESS))) thing JobStatus.QUEUED
  · rw [cancelAll_of_mem _ _ hm2]
    exact ⟨by simp, by simp⟩
  · rw [cancelAll_of_not_mem _ _ hm2]
    by_cases hm1 : j0.jobId ∈ jobIdsFor store thing JobStatus.IN_PROGRESS
    · rw [cancelAll_of_mem _ _ hm1]
      exact ⟨by simp, by simp⟩
    · rw [cancelAll_of_not_mem _ _ hm1]
      rw [cancelAll_of_not_mem _ _ hm1] at hm2
      constructor
      · intro hq
        apply hm2
        have hmem1 : j0 ∈ store.map (cancelAll (jobIdsFor store thing
            JobStatus.IN_PROGRESS)) := by
          have hmap := List.mem_map_of_mem (cancelAll (jobIdsFor store thing
            JobStatus.IN_PROGRESS)) hj0
          rwa [cancelAll_of_not_mem _ _ hm1] at hmap
        exact mem_jobIdsFor hmem1 ht0 hq
      · intro hip
        exact hm1 (mem_jobIdsFor hj0 ht0 hip)

theorem failIPQ_length (raises : String → Option String)
    (hr : ∀ id, raises id = none) (store : JobStore) (thing : String) :
    (failInProgressAndQueuedJobs raises store thing).length =
      store.length := by
  rw [failIPQ_eq raises hr store thing]
  simp

theorem canceled_at_index_failIPQ (raises : String → Option String)
    (hr : ∀ id, raises id = none) (store : JobStore) (thing : String)
    (k : Nat) (hk : k < store.length)
    (hk2 : k < (failInProgressAndQueuedJobs raises store thing).length)
    (ht : store[k].target = thing)
    (hnt : store[k].status = JobStatus.QUEUED ∨
      store[k].status = JobStatus.IN_PROGRESS) :
    (failInProgressAndQueuedJobs raises store thing)[k].jobId =
      store[k].jobId ∧
    (failInProgressAndQueuedJobs raises store thing)[k].status =
      JobStatus.CANCELED := by
  have hres : (failInProgressAndQueuedJobs raises store thing)[k] =
      cancelAll (jobIdsFor (store.map (cancelAll (jobIdsFor store thing
        JobStatus.IN_PROGRESS))) thing JobStatus.QUEUED)
        (cancelAll (jobIdsFor store thing JobStatus.IN_PROGRESS)
          store[k]) := by
    have he := failIPQ_eq raises hr store thing
    rw [List.getElem_of_eq he, List.getElem_map, List.getElem_map]
  rw [hres, cancelAll_jobId, cancelAll_jobId]
  refine ⟨rfl, ?_⟩
  rcases hnt with hq | hip
  · by_cases hm1 : store[k].jobId ∈ jobIdsFor store thing
        JobStatus.IN_PROGRESS
    · rw [cancelAll_of_mem _ _ hm1]
      by_cases hm2 : ({ store[k] with status := JobStatus.CANCELED} :
            Job).jobId ∈ jobIdsFor (store.map (cancelAll (jobIdsFor store
              thing JobStatus.IN_PROGRESS))) thing JobStatus.QUEUED
      · rw [cancelAll_of_mem _ _ hm2]
      · rw [cancelAll_of_not_mem _ _ hm2]
    · rw [cancelAll_of_not_mem _ _ hm1]
      have hmem1 : store[k] ∈ store.map (cancelAll (jobIdsFor store thing
          JobStatus.IN_PROGRESS)) := by
        have hmap := List.mem_map_of_mem (cancelAll (jobIdsFor store thing
          JobStatus.IN_PROGRESS)) (List.getElem_mem hk)
        rwa [cancelAll_of_not_mem _ _ hm1] at hmap
      rw [cancelAll_of_mem _ _ (mem_jobIdsFor hmem1 ht hq)]
  · have hm1 := mem_jobIdsFor (List.getElem_mem hk) ht hip
    rw [cancelAll_of_mem _ _ hm1]
    by_cases hm2 : ({ store[k] with status := JobStatus.CANCELED} :
          Job).jobId ∈ jobIdsFor (store.map (cancelAll (jobIdsFor store
            thing JobStatus.IN_PROGRESS))) thing JobStatus.QUEUED
    · rw [cancelAll_of_mem _ _ hm2]
    · rw [cancelAll_of_not_mem _ _ hm2]

theorem filter_deleteJob_cons (store : JobStore) (id : String)
    (ids : List String) :
    (deleteJob store id).filter (fun j => decide (¬ j.jobId ∈ ids)) =
      store.filter (fun j => decide (¬ j.jobId ∈ id :: ids)) := by
  rw [deleteJob, List.filter_filter]
  congr 1
  funext j
  by_cases h1 : j.jobId = id <;> by_cases h2 : j.jobId ∈ ids <;>
    simp [h1, h2]

theorem except_error_bind {α β : Type} (e : String)
    (f : α → Except String β) :
    (Except.error e >>= f : Except String β) = Except.error e := rfl

theorem except_ok_bind {α β : Type} (a : α) (f : α → Except String β) :
    (Except.ok a >>= f : Except String β) = f a := rfl

theorem foldlM_delete_ok (raises : String → Option String) :
    ∀ (ids : List String) (store s2 : JobStore),
      (ids.foldlM (fun s id =>
        match raises id with
        | some err => Except.error err
        | none => Except.ok (deleteJob s id)) store :
          Except String JobStore) = Except.ok s2 →
      s2 = store.filter (fun j => decide (¬ j.jobId ∈ ids)) := by
  intro ids
  induction ids with
  | nil =>
    intro store s2 h
    simp only [List.foldlM_nil] at h
    cases h
    simp
  | cons id ids ih =>
    intro store s2 h
    rw [List.foldlM_cons] at h
    cases hcase : raises id with
    | some err =>
      rw [hcase, except_error_bind] at h
      simp at h
    | none =>
      rw [hcase, except_ok_bind] at h
      rw [ih (deleteJob store id) s2 h, filter_deleteJob_cons]

theorem delete_result_no_nonterminal (raises : String → Option String)
    (store : JobStore) (thing : String) (s2 : JobStore)
    (h : deleteUnfinishedJobs raises store thing = Except.ok s2) :
    ∀ j ∈ s2, j.target = thing → j.status.terminal := by
  unfold deleteUnfinishedJobs at h
  cases hf1 : (jobIdsFor store thing JobStatus.IN_PROGRESS).foldlM
      (fun s id =>
        match raises id with
        | some err => Except.error err
        | none => Except.ok (deleteJob s id)) store with
  | error e =>
    rw [hf1, except_error_bind] at h
    simp at h
  | ok s1 =>
    rw [hf1, except_ok_bind] at h
    have hs1 := foldlM_delete_ok raises _ store s1 hf1
    have hs2 := foldlM_delete_ok raises _ s1 s2 h
    intro j hj ht
    rw [hs2] at hj
    obtain ⟨hjs1, hdec2⟩ := List.mem_filter.mp hj
    have hnotin2 : ¬ j.jobId ∈ jobIdsFor s1 thing JobStatus.QUEUED :=
      of_decide_eq_true hdec2
    have hjstore := List.mem_filter.mp (hs1 ▸ hjs1)
    constructor
    · intro hq
      exact hnotin2 (mem_jobIdsFor hjs1 ht hq)
    · intro hip
      exact (of_decide_eq_true hjstore.2) (mem_jobIdsFor hjstore.1 ht hip)

/-- C1 counterexample: with a backend on which the single cancel_job call
for 'job-1' raises (e.g. a throttling error), fail_in_progress_and_queued_jobs
returns normally — cancel catches the exception from its one cancel_job call
and returns a FAILED message instead of raising or retrying — and the
target's IN_PROGRESS job is still IN_PROGRESS after reconcile has
returned. -/
theorem c1_reconcile_exclusivity_cex :
    failInProgressAndQueuedJobs (fun _ => some "ThrottlingException")
      [{ jobId := "job-1", target := "thing-1", status := JobStatus.IN_PROGRESS }]
      "thing-1" =
      [{ jobId := "job-1", target := "thing-1", status := JobStatus.IN_PROGRESS }] := by
  decide

/-- C1 (amended): provided every cancel_job call succeeds, after
fail_in_progress_and_queued_jobs returns, every job of the target holds a
terminal status, and each job of the target that was QUEUED or IN_PROGRESS
sits CANCELED at its position in the store with its id unchanged; and
whenever delete_unfinished_jobs returns instead of raising, no QUEUED or
IN_PROGRESS job of the target remains (those jobs were deleted outright
rather than transitioned to a terminal state).  When a cancel_job call
fails, cancel swallows the failure and the job can remain non-terminal (see
the counterexample). -/
theorem c1_reconcile_exclusivity_amended (raises : String → Option String)
    (store : JobStore) (thing : String) (hr : ∀ id, raises id = none) :
    (∀ j ∈ failInProgressAndQueuedJobs raises store thing,
      j.target = thing → j.status.terminal) ∧
    (failInProgressAndQueuedJobs raises store thing).length =
      store.length ∧
    (∀ (k : Nat) (hk : k < store.length)
      (hk2 : k < (failInProgressAndQueuedJobs raises store thing).length),
      store[k].target = thing →
      (store[k].status = JobStatus.QUEUED ∨
        store[k].status = JobStatus.IN_PROGRESS) →
      (failInProgressAndQueuedJobs raises store thing)[k].jobId =
        store[k].jobId ∧
      (failInProgressAndQueuedJobs raises store thing)[k].status =
        JobStatus.CANCELED) ∧
    (∀ s2, deleteUnfinishedJobs raises store thing = Except.ok s2 →
      ∀ j ∈ s2, j.target = thing → j.status.terminal) :=
  ⟨no_nonterminal_after_failIPQ raises hr store thing,
   failIPQ_length raises hr store thing,
   fun k hk hk2 => canceled_at_index_failIPQ raises hr store thing k hk hk2,
   fun s2 h => delete_result_no_nonterminal raises store thing s2 h⟩

/-- C1 witness: in a store with one IN_PROGRESS and one QUEUED job for
'thing-1' and no cancel failures, reconcile leaves both CANCELED. -/
theorem c1_reconcile_exclusivity_witness :
    (failInProgressAndQueuedJobs (fun _ => none)
      [{ jobId := "job-1", target := "thing-1", status := JobStatus.IN_PROGRESS },
       { jobId := "job-2", target := "thing-1", status := JobStatus.QUEUED }]
      "thing-1").length = 2 ∧
    ((failInProgressAndQueuedJobs (fun _ => none)
      [{ jobId := "job-1", target := "thing-1", status := JobStatus.IN_PROGRESS },
       { jobId := "job-2", target := "thing-1", status := JobStatus.QUEUED }]
      "thing-1").get ⟨0, by decide⟩).status = JobStatus.CANCELED ∧
    ((failInProgressAndQueuedJobs (fun _ => none)
      [{ jobId := "job-1", target := "thing-1", status := JobStatus.IN_PROGRESS },
       { jobId := "job-2", target := "thing-1", status := JobStatus.QUEUED }]
      "thing-1").get ⟨1, by decide⟩).status = JobStatus.CANCELED := by
  have h := c1_reconcile_exclusivity_amended (fun _ => none)
    [{ jobId := "job-1", target := "thing-1", status := JobStatus.IN_PROGRESS },
     { jobId := "job-2", target := "thing-1", status := JobStatus.QUEUED }]
    "thing-1" (fun _ => rfl)
  refine ⟨?_, ?_, ?_⟩
  · rw [h.2.1]
    decide
  · have h0 := h.2.2.1 0 (by decide) (by rw [h.2.1]; decide) rfl (Or.inr rfl)
    rw [List.get_eq_getElem]
    exact h0.2
  · have h1 := h.2.2.1 1 (by decide) (by rw [h.2.1]; decide) rfl (Or.inl rfl)
    rw [List.get_eq_getElem]
    exact h1.2

theorem cancelWaitLoop_reaches (describe : Nat → DescribeResult) (k : Nat)
    (hdone : describe k = DescribeResult.ok "CANCELED") :
    ∀ fuel i, (∀ i2, i2 < k → ∃ e, describe i2 = DescribeResult.err e) →
      i ≤ k → k - i < fuel → cancelWaitLoop describe i fuel = some () := by
  intro fuel
  induction fuel with
  | zero => intro i _ _ h3; omega
  | succ fuel ih =>
    intro i hk hik hf
    by_cases hik2 : i = k
    · subst hik2
      rw [cancelWaitLoop, hdone]
      simp
    · obtain ⟨e, he⟩ := hk i (by omega)
      rw [cancelWaitLoop, he]
      exact ih (i + 1) hk (by omega) (by omega)

/-- C7 counterexample: the force-termination call is not retried and its
first failure is final.  A raising cancel_job call makes cancel return the
FAILED message at once — the next attempt would have succeeded, but none is
made, and the job stays IN_PROGRESS; a raising delete_job makes
delete_unfinished_jobs propagate the exception at once. -/
theorem c7_forced_termination_retry_cex :
    cancel (fun _ => some "ThrottlingException")
      [{ jobId := "job-1", target := "thing-1", status := JobStatus.IN_PROGRESS }]
      "job-1" =
      { store := [{ jobId := "job-1", target := "thing-1", status := JobStatus.IN_PROGRESS }],
        message := "Cancel job job-1 FAILED! Error details: ThrottlingException" } ∧
    deleteUnfinishedJobs (fun _ => some "ThrottlingException")
      [{ jobId := "job-1", target := "thing-1", status := JobStatus.IN_PROGRESS }]
      "thing-1" = Except.error "ThrottlingException" := by
  constructor
  · rfl
  · rfl

/-- C7 (amended): inside cancel, what is retried with a bounded (1 second)
wait is the describe_job status poll that follows a successful cancel_job
call: if the first k describe calls fail transiently (not-yet-visible job,
throttling) and the next reports CANCELED, the wait loop completes without
raising.  The cancel_job call itself is not retried: on its failure, cancel
returns the FAILED message at once and leaves the store unchanged. -/
theorem c7_forced_termination_retry_amended
    (describe : Nat → DescribeResult) (k fuel : Nat)
    (raises : String → Option String) (store : JobStore)
    (jobId err : String)
    (hk : ∀ i, i < k → ∃ e, describe i = DescribeResult.err e)
    (hdone : describe k = DescribeResult.ok "CANCELED")
    (hfuel : k < fuel) (hraise : raises jobId = some err) :
    cancelWaitLoop describe 0 fuel = some () ∧
    cancel raises store jobId =
      { store := store,
        message := "Cancel job " ++ jobId ++ " FAILED! Error details: "
          ++ err } := by
  constructor
  · exact cancelWaitLoop_reaches describe k hdone fuel 0 hk (by omega)
      (by omega)
  · simp [cancel, hraise]

/-- C7 witness: two transient describe failures followed by a CANCELED
status complete the wait loop; a raising cancel_job yields the immediate
FAILED message. -/
theorem c7_forced_termination_retry_witness :
    cancelWaitLoop (fun i =>
      if i < 2 then DescribeResult.err "ResourceNotFoundException"
      else DescribeResult.ok "CANCELED") 0 4 = some () ∧
    cancel (fun _ => some "Boom") [] "job-1" =
      { store := [],
        message := "Cancel job job-1 FAILED! Error details: Boom" } :=
  c7_forced_termination_retry_amended
    (fun i =>
      if i < 2 then DescribeResult.err "ResourceNotFoundException"
      else DescribeResult.ok "CANCELED")
    2 4 (fun _ => some "Boom") [] "job-1" "Boom"
    (fun i hi => ⟨"ResourceNotFoundException", by simp [hi]⟩)
    (by rfl) (by omega) rfl

/-- One observation of describe_job_execution inside respond's polling loop:
the call raises ResourceNotFoundException (caught, slept on and retried), or
returns a response with nothing at
['execution']['statusDetails']['detailsMap']['output'] (the KeyError path,
also slept on and retried), or returns a response carrying the output. -/
inductive ExecObs where
  | resourceNotFound
  | noOutput
  | output (s : String)
deriving DecidableEq, Repr

/-- What respond returns: the 'output' and 'message' fields of its dict. -/
structure RespondResult where
  output : String
  message : String
deriving DecidableEq, Repr

/-- respond in src/lambda_func/remote_control_api/lambda_function.py lines
111-155: `counter = 0; while counter < timeout:`, each iteration calling
describe_job_execution (`obs counter`): ResourceNotFoundException and a
missing output both sleep 1 second and increment the counter; a present
output returns at once with 'Respond SUCCEEDED!'.  When the counter reaches
`timeout` the timed-out dict is returned — the function does not raise. -/
def respondLoop (obs : Nat → ExecObs) (timeout : Nat) (counter : Nat) :
    RespondResult :=
  if _h : counter < timeout then
    match obs counter with
    | ExecObs.resourceNotFound => respondLoop obs timeout (counter + 1)
    | ExecObs.noOutput => respondLoop obs timeout (counter + 1)
    | ExecObs.output s => { output := s, message := "Respond SUCCEEDED!" }
  else
    { output := "N/A", message := "ERROR: waiting for response times out!" }
termination_by timeout - counter
decreasing_by omega

/-- respond entered at counter 0. -/
def respond (obs : Nat → ExecObs) (timeout : Nat) : RespondResult :=
  respondLoop obs timeout 0

/-- One response of describe_job_execution inside poll_job: the execution's
status string and the optional statusDetails['output'] value. -/
structure PollResp where
  status : String
  outputField : Option String
deriving DecidableEq, Repr

/-- poll_job in src/lambda_function/lambda_handler.py lines 92-126:
`while True:` describe the execution; while the status is IN_PROGRESS or
QUEUED, sleep 1 second and poll again — there is no timeout parameter and no
bound on the loop; otherwise return (status, statusDetails['output']), where
a missing 'output' key raises KeyError (`Except.error`).  Fuel bounds the
modelled iterations: `none` means the loop was still polling when the fuel
ran out. -/
def pollJob (obs : Nat → PollResp) : Nat → Nat →
    Option (Except String (String × String))
  | _, 0 => none
  | n, fuel + 1 =>
    if (obs n).status = "IN_PROGRESS" ∨ (obs n).status = "QUEUED" then
      pollJob obs (n + 1) fuel
    else
      match (obs n).outputField with
      | some out => some (Except.ok ((obs n).status, out))
      | none => some (Except.error "KeyError: output")

/-- A job stuck IN_PROGRESS forever: every describe call reports
IN_PROGRESS. -/
def stuckObs : Nat → PollResp :=
  fun _ => { status := "IN_PROGRESS", outputField := none }

/-- poll_job terminates against a backend: some number of polling steps
produces a result (a return value or a raised KeyError). -/
def pollJobReturns (obs : Nat → PollResp) : Prop :=
  ∃ fuel r, pollJob obs 0 fuel = some r

theorem pollJob_never (pobs : Nat → PollResp)
    (hp : ∀ i, (pobs i).status = "IN_PROGRESS" ∨
      (pobs i).status = "QUEUED") :
    ∀ fuel n, pollJob pobs n fuel = none := by
  intro fuel
  induction fuel with
  | zero => intro n; rfl
  | succ fuel ih =>
    intro n
    rw [pollJob, if_pos (hp n)]
    exact ih (n + 1)

/-- C3 counterexample: poll_job in src/lambda_function/lambda_handler.py has
no timeout: against a job that never leaves IN_PROGRESS it polls forever —
no number of polling steps makes it return anything, let alone a TIMED_OUT
result with output 'N/A'. -/
theorem c3_dispatch_timeout_cex : ¬ pollJobReturns stuckObs := by
  intro h
  obtain ⟨fuel, r, hr⟩ := h
  rw [pollJob_never stuckObs (fun i => Or.inl rfl) fuel 0] at hr
  exact Option.noConfusion hr

theorem respondLoop_times_out (obs : Nat → ExecObs) (timeout : Nat)
    (h : ∀ i, i < timeout → ∀ s, obs i ≠ ExecObs.output s) :
    ∀ n counter, timeout - counter ≤ n →
      respondLoop obs timeout counter =
        { output := "N/A",
          message := "ERROR: waiting for response times out!" } := by
  intro n
  induction n with
  | zero =>
    intro counter hc
    rw [respondLoop, dif_neg (by omega)]
  | succ n ih =>
    intro counter hc
    rw [respondLoop]
    by_cases hlt : counter < timeout
    · rw [dif_pos hlt]
      cases hobs : obs counter with
      | resourceNotFound => exact ih (counter + 1) (by omega)
      | noOutput => exact ih (counter + 1) (by omega)
      | output s => exact absurd hobs (h counter hlt s)
    · rw [dif_neg hlt]

/-- C3 (amended): respond returns the timed-out dict
{'output': 'N/A', 'message': 'ERROR: waiting for response times out!'}
without raising when no describe response within the `timeout` polls carries
an output; poll_job, by contrast, takes no timeout at all and never returns
while the execution status stays IN_PROGRESS or QUEUED — the timed-out
result exists only on the remote_control_api respond path. -/
theorem c3_dispatch_timeout_amended (obs : Nat → ExecObs) (timeout : Nat)
    (pobs : Nat → PollResp)
    (h : ∀ i, i < timeout → ∀ s, obs i ≠ ExecObs.output s)
    (hp : ∀ i, (pobs i).status = "IN_PROGRESS" ∨
      (pobs i).status = "QUEUED") :
    respond obs timeout =
      { output := "N/A",
        message := "ERROR: waiting for response times out!" } ∧
    ∀ fuel n, pollJob pobs n fuel = none :=
  ⟨respondLoop_times_out obs timeout h timeout 0 (by omega),
   pollJob_never pobs hp⟩

/-- C3 witness: three polls that all miss produce the timed-out dict, and a
stuck job keeps poll_job running after a thousand steps. -/
theorem c3_dispatch_timeout_witness :
    respond (fun _ => ExecObs.resourceNotFound) 3 =
      { output := "N/A",
        message := "ERROR: waiting for response times out!" } ∧
    pollJob stuckObs 0 1000 = none := by
  have h := c3_dispatch_timeout_amended (fun _ => ExecObs.resourceNotFound)
    3 stuckObs (fun i hi s => by simp) (fun i => Or.inl rfl)
  exact ⟨h.1, h.2 1000 0⟩

/-- The value of Python's `uuid.uuid3(uuid.NAMESPACE_DNS,
'spottparking.com')`: uuid3 is the name-based MD5 UUID of its two arguments,
and both arguments are fixed literals at the call site in
src/lambda_function/lambda_handler.py line 157, so every invocation computes
this same string. -/
def uuid3DNSSpottparking : String := "71f46355-434b-3570-bd40-d18a9f1b2437"

/-- The job id generated per dispatch by lambda_handler in
src/lambda_function/lambda_handler.py line 157:
`f'{cmd}-{uuid.uuid3(uuid.NAMESPACE_DNS, "spottparking.com")}'` — a pure
function of the command name alone. -/
def handlerJobId (cmd : String) : String :=
  cmd ++ "-" ++ uuid3DNSSpottparking

/-- The dict returned by command in
src/lambda_func/remote_control_api/lambda_function.py lines 77-108. -/
structure CommandResp where
  jobId : String
  message : String
deriving DecidableEq, Repr

/-- command in src/lambda_func/remote_control_api/lambda_function.py lines
77-108: `job_id = str(uuid.uuid1())` (the time-based UUID generated for this
invocation, passed in as `uuid1`), then create_job inside try/except; on
failure the SAME dict shape is returned, carrying the generated jobId and a
message embedding the exception text — the exception is not re-raised and no
error envelope is produced here. -/
def command (uuid1 : String) (cmd : String)
    (createOutcome : Except String Unit) : CommandResp :=
  match createOutcome with
  | Except.error err =>
    { jobId := uuid1,
      message := "Command \"" ++ cmd ++ "\" FAILED! ERROR: " ++ err }
  | Except.ok _ =>
    { jobId := uuid1,
      message := "Command \"" ++ cmd ++ "\" SUCCEEDED!" }

/-- The body of a response of the lambda_function/lambda_handler.py handler:
either the {'message': ...} of error_response, or the success body
{'thing_name', 'cmd', 'job_id', 'job_status', 'job_output'}. -/
inductive V1Body where
  | message (m : String)
  | success (thing cmd jobId jobStatus jobOutput : String)
deriving DecidableEq, Repr

/-- An HTTP response of the lambda_function/lambda_handler.py handler. -/
structure V1Response where
  statusCode : Nat
  body : V1Body
deriving DecidableEq, Repr

/-- error_response in src/lambda_function/lambda_handler.py lines 32-48. -/
def errorResponseV1 (errorMsg : String) (statusCode : Nat) : V1Response :=
  { statusCode := statusCode, body := V1Body.message errorMsg }

/-- lambda_handler in src/lambda_function/lambda_handler.py lines 129-189:
delete_unfinished_jobs, then create_job under the freshly computed
`handlerJobId cmd`, then poll_job; each step sits in its own try/except
whose except branch returns error_response(msg + exception text, 500); on
success a 200 envelope carries thing_name, cmd, job_id, job_status and
job_output. -/
def lambdaHandlerV1 (thing cmd : String)
    (deleteOutcome : Except String Unit)
    (createOutcome : Except String Unit)
    (pollOutcome : Except String (String × String)) : V1Response :=
  match deleteOutcome with
  | Except.error err1 =>
    errorResponseV1 ("Unable to delete unfinished jobs for " ++ thing
      ++ ". Exception: " ++ err1) 500
  | Except.ok _ =>
    match createOutcome with
    | Except.error err2 =>
      errorResponseV1 ("Unable to create a new job for " ++ thing
        ++ ". Exception: " ++ err2) 500
    | Except.ok _ =>
      match pollOutcome with
      | Except.error err3 =>
        errorResponseV1 ("Unable to poll \"" ++ handlerJobId cmd
          ++ "\" status for " ++ thing ++ ". Exception: " ++ err3) 500
      | Except.ok (st, out) =>
        { statusCode := 200,
          body := V1Body.success thing cmd (handlerJobId cmd) st out }

/-- The body of a response of the remote_control_api handler: the
{'message': ...} of error_response, or the json.dumps of the dict returned
by command / respond / cancel. -/
inductive ApiBody where
  | message (m : String)
  | cmdResp (r : CommandResp)
  | respResp (r : RespondResult)
  | cancelResp (m : String)
deriving DecidableEq, Repr

/-- An HTTP response of the remote_control_api handler. -/
structure ApiResponse where
  statusCode : Nat
  body : ApiBody
deriving DecidableEq, Repr

/-- The action=cmd path of lambda_handler in
src/lambda_func/remote_control_api/lambda_function.py lines 284-329, with
validate's action=cmd checks (lines 196-281) inlined: a missing 'cmd' query
parameter or an empty thingNames list yields error_response(..., 400);
otherwise fail_in_progress_and_queued_jobs runs for each thing OUTSIDE any
try/except, so a failure there (`reconcileOutcome = Except.error e`)
propagates uncaught out of the handler (`Except.error e`: no structured
response at all); otherwise the dict returned by command — whether its
create_job succeeded or not — is wrapped in a statusCode 200 envelope. -/
def apiLambdaHandlerCmd (cmdParam : Option String)
    (thingNames : List String) (uuid1 : String)
    (reconcileOutcome : Except String Unit)
    (createOutcome : Except String Unit) : Except String ApiResponse :=
  match cmdParam with
  | none =>
    Except.ok {
      statusCode := 400,
      body := ApiBody.message
        "ERROR: \"cmd\" or \"thingNames\" is missing in query string" }
  | some cmd =>
    if thingNames = [] then
      Except.ok {
        statusCode := 400,
        body := ApiBody.message
          "ERROR: \"cmd\" or \"thingNames\" is missing in query string" }
    else
      match reconcileOutcome with
      | Except.error e => Except.error e
      | Except.ok _ =>
        Except.ok {
          statusCode := 200,
          body := ApiBody.cmdResp (command uuid1 cmd createOutcome) }

/-- C5 counterexample: the lambda_function/lambda_handler.py job id is a
pure function of the command name — uuid3 is the name-based MD5 UUID of its
arguments and both arguments are fixed literals — so two dispatch
invocations with the same cmd (here, to two different things) generate the
SAME job id rather than distinct ones. -/
theorem c5_fresh_job_id_cex :
    handlerJobId "version" =
      "version-71f46355-434b-3570-bd40-d18a9f1b2437" ∧
    (lambdaHandlerV1 "thing-1" "version" (Except.ok ()) (Except.ok ())
      (Except.ok ("SUCCEEDED", "0.0.1"))).body =
      V1Body.success "thing-1" "version"
        "version-71f46355-434b-3570-bd40-d18a9f1b2437" "SUCCEEDED"
        "0.0.1" ∧
    (lambdaHandlerV1 "thing-2" "version" (Except.ok ()) (Except.ok ())
      (Except.ok ("SUCCEEDED", "0.0.1"))).body =
      V1Body.success "thing-2" "version"
        "version-71f46355-434b-3570-bd40-d18a9f1b2437" "SUCCEEDED"
        "0.0.1" :=
  ⟨rfl, rfl, rfl⟩

/-- C5 (amended): in remote_control_api, command uses the per-invocation
str(uuid.uuid1()) unchanged as the job id, so distinct uuid1 values give
distinct job ids; in lambda_function/lambda_handler.py the job id is
cmd + '-' + uuid3(NAMESPACE_DNS, 'spottparking.com'), a deterministic
function of cmd alone, so every dispatch of the same command generates the
same job id. -/
theorem c5_fresh_job_id_amended (u1 u2 cmd1 cmd2 : String)
    (o1 o2 : Except String Unit) (h : u1 ≠ u2) :
    (command u1 cmd1 o1).jobId ≠ (command u2 cmd2 o2).jobId ∧
    (∀ cmd, handlerJobId cmd = cmd ++ "-" ++ uuid3DNSSpottparking) := by
  constructor
  · cases o1 <;> cases o2 <;> simpa [command] using h
  · intro cmd
    rfl

/-- C5 witness: two distinct uuid1 values yield distinct api job ids; the
handler job id for 'version' is the fixed concatenation. -/
theorem c5_fresh_job_id_witness :
    (command "5710d210-a7cc-11ec-b909-0242ac120002" "version"
      (Except.ok ())).jobId ≠
    (command "60aa30f2-a7cc-11ec-b909-0242ac120002" "version"
      (Except.ok ())).jobId ∧
    handlerJobId "version" = "version" ++ "-" ++ uuid3DNSSpottparking :=
  ⟨(c5_fresh_job_id_amended "5710d210-a7cc-11ec-b909-0242ac120002"
      "60aa30f2-a7cc-11ec-b909-0242ac120002" "version" "version"
      (Except.ok ()) (Except.ok ()) (by decide)).1,
   (c5_fresh_job_id_amended "x" "y" "version" "version" (Except.ok ())
      (Except.ok ()) (by decide)).2 "version"⟩

/-- C6 counterexample: in remote_control_api, a failing create_job does not
produce a 500 response — command catches the exception and the handler
wraps the failure dict in a 200 envelope. -/
theorem c6_server_error_cex :
    apiLambdaHandlerCmd (some "version") ["thing-1"] "uuid-1"
      (Except.ok ()) (Except.error "AccessDeniedException") =
      Except.ok {
        statusCode := 200,
        body := ApiBody.cmdResp {
          jobId := "uuid-1",
          message :=
            "Command \"version\" FAILED! ERROR: AccessDeniedException" } } :=
  rfl

/-- C6 (amended): in lambda_function/lambda_handler.py the claim holds:
reconciliation (delete_unfinished_jobs) and creation failures return a
statusCode 500 response whose message embeds the originating exception
text, never a 200 envelope.  In remote_control_api it does not hold: a
reconciliation failure propagates uncaught (no structured response at all),
and a creation failure is caught inside command and wrapped in a 200
envelope. -/
theorem c6_server_error_amended (thing cmd uuid e1 e2 e : String)
    (c : Except String Unit) (p : Except String (String × String))
    (things : List String) (hne : things ≠ []) :
    lambdaHandlerV1 thing cmd (Except.error e1) c p =
      errorResponseV1 ("Unable to delete unfinished jobs for " ++ thing
        ++ ". Exception: " ++ e1) 500 ∧
    lambdaHandlerV1 thing cmd (Except.ok ()) (Except.error e2) p =
      errorResponseV1 ("Unable to create a new job for " ++ thing
        ++ ". Exception: " ++ e2) 500 ∧
    apiLambdaHandlerCmd (some cmd) things uuid (Except.error e) c =
      Except.error e ∧
    apiLambdaHandlerCmd (some cmd) things uuid (Except.ok ())
      (Except.error e2) =
      Except.ok {
        statusCode := 200,
        body := ApiBody.cmdResp {
          jobId := uuid,
          message := "Command \"" ++ cmd ++ "\" FAILED! ERROR: "
            ++ e2 } } := by
  refine ⟨rfl, rfl, ?_, ?_⟩ <;> simp [apiLambdaHandlerCmd, hne, command]

/-- C6 witness: with a concrete failing reconciliation or creation, the V1
handler answers 500 with the exception text and the api handler propagates
or answers 200. -/
theorem c6_server_error_witness :
    lambdaHandlerV1 "thing-1" "version" (Except.error "AccessDenied")
      (Except.ok ()) (Except.ok ("SUCCEEDED", "0.0.1")) =
      errorResponseV1
        "Unable to delete unfinished jobs for thing-1. Exception: AccessDenied"
        500 ∧
    apiLambdaHandlerCmd (some "version") ["thing-1"] "uuid-1"
      (Except.error "AccessDenied") (Except.ok ()) =
      Except.error "AccessDenied" := by
  have h := c6_server_error_amended "thing-1" "version" "uuid-1"
    "AccessDenied" "e2" "AccessDenied" (Except.ok ())
    (Except.ok ("SUCCEEDED", "0.0.1")) ["thing-1"] (by decide)
  exact ⟨h.1, h.2.2.1⟩

/-- C10 (implicit): command always returns an envelope containing the
freshly generated jobId, even when create_job fails — the caller receives
the id of a job that was never created, the failure reported only through
the message text — and the remote_control_api handler still wraps this in a
200 response. -/
theorem c10_job_id_even_on_failure (uuid cmd err : String) :
    command uuid cmd (Except.error err) =
      { jobId := uuid,
        message := "Command \"" ++ cmd ++ "\" FAILED! ERROR: " ++ err } ∧
    apiLambdaHandlerCmd (some cmd) ["thing-1"] uuid (Except.ok ())
      (Except.error err) =
      Except.ok {
        statusCode := 200,
        body := ApiBody.cmdResp {
          jobId := uuid,
          message := "Command \"" ++ cmd ++ "\" FAILED! ERROR: "
            ++ err } } :=
  ⟨rfl, rfl⟩
